import Mathlib

set_option linter.unusedVariables false

/-!
Shallow embedding of the `purchase_enhancements` Frappe app
(`reminder_service.py`, `api.py`).

Modelling conventions:
* quantities (`flt` values) are rationals `ℚ`;
* dates are integers counting days, `nowdate()` is an explicit `today : ℤ`
  argument and `add_days(d, n) = d + n`;
* the framework database is an explicit `DB` record of row lists;
* `frappe.get_doc` on a missing record raises, modelled with `Except`;
* Python `x or default` on an optional numeric (where both `None` and `0`
  are falsy) is `pyOrQ` / `pyOrI`;
* comments (`add_comment`), e-mail and `Notification Log` records are
  write-only side channels that no claim reads, and are not part of `DB`.
-/

namespace PurchaseEnhancements

/-- The `status` select field of a Delivery Reminder (`Open` / `Closed`). -/
inductive RStatus where
  | Open
  | Closed
deriving DecidableEq, Repr

/-- The `reminder_level` select field (`First` / `Second` / `Final`). -/
inductive RLevel where
  | First
  | Second
  | Final
deriving DecidableEq, Repr

/-- The `priority` select field (`Critical` / `High` / `Medium` / `Low`). -/
inductive RPriority where
  | Critical
  | High
  | Medium
  | Low
deriving DecidableEq, Repr

/-- Python `x or d` for an optional rational: `None` and `0` are falsy. -/
def pyOrQ (v : Option ℚ) (d : ℚ) : ℚ :=
  match v with
  | none => d
  | some x => if x = 0 then d else x

/-- Python `x or d` for an optional integer: `None` and `0` are falsy. -/
def pyOrI (v : Option ℤ) (d : ℤ) : ℤ :=
  match v with
  | none => d
  | some x => if x = 0 then d else x

/-- The `Purchase Enhancement Settings` single doc, as read through
`settings.get(key, default)` (reminder service) and attribute access
(api).  `Option` fields model keys that may be absent or `NULL`; the
source's defaults are applied at each use site. -/
structure Settings where
  enable_auto_reminders : Bool
  auto_escalate_enabled : Bool
  send_daily_digest : Bool
  auto_cleanup_enabled : Bool
  archive_closed_reminders : Bool
  default_follow_up_days : Option ℤ
  critical_priority_percentage : Option ℚ
  high_priority_percentage : Option ℚ
  medium_priority_percentage : Option ℚ
  cleanup_after_days : Option ℤ
  enable_purchase_history : Bool
  history_cache_duration : Option ℤ
  max_history_items : Option ℤ
deriving DecidableEq, Repr

/-- A `Purchase Order` row (the fields the code reads). -/
structure PurchaseOrder where
  name : String
  supplier : String
  company : String
  owner : String
  transaction_date : ℤ
  schedule_date : Option ℤ
deriving DecidableEq, Repr

/-- A `Purchase Order Item` row.  `qty` is `Option` because
`frappe.db.get_value(..., "qty")` can return `NULL`. -/
structure POItem where
  name : String
  parent : String
  item_code : String
  project : String
  qty : Option ℚ
  rate : ℚ
  amount : ℚ
  received_qty : ℚ
deriving DecidableEq, Repr

/-- A `Purchase Receipt Item` row as seen by the SUM query
(`purchase_order_item`, `docstatus`, `qty`). -/
structure PRItem where
  purchase_order_item : String
  docstatus : ℕ
  qty : ℚ
deriving DecidableEq, Repr

/-- A `Delivery Reminder` row. -/
structure DeliveryReminder where
  name : String
  purchase_order : String
  purchase_order_item : String
  supplier : String
  item_code : String
  pending_qty : ℚ
  status : RStatus
  auto_created : Bool
  triggering_receipt : String
  expected_delivery_date : ℤ
  priority : RPriority
  reminder_level : RLevel
  next_follow_up_date : ℤ
  modified : ℤ
deriving DecidableEq, Repr

/-- The framework database: one list of rows per doctype the code touches.
`nextId` models the naming series used when a new Delivery Reminder is
inserted. -/
structure DB where
  purchaseOrders : List PurchaseOrder
  poItems : List POItem
  receiptItems : List PRItem
  reminders : List DeliveryReminder
  nextId : ℕ
deriving DecidableEq, Repr

/-- A line item of the receipt document handed to the hook.  The
`purchase_order_item` link is `none` when unset (Python-falsy). -/
structure ReceiptItem where
  purchase_order_item : Option String
  purchase_order : String
  item_code : String
deriving DecidableEq, Repr

/-- The receipt document handed to `update_reminders_for_receipt`. -/
structure ReceiptDoc where
  doctype : String
  name : String
  items : List ReceiptItem
deriving DecidableEq, Repr

/-- `frappe.db.get_value("Purchase Order Item", name, "qty")`:
`none` when the row is missing or the column is `NULL`. -/
def getPOItemQty (db : DB) (n : String) : Option ℚ :=
  (db.poItems.find? (fun i => i.name == n)).bind (fun i => i.qty)

/-- The `SELECT SUM(qty) ... WHERE purchase_order_item = %s AND docstatus = 1`
aggregate: an SQL `SUM` over no rows is `NULL`, i.e. `none`. -/
def sqlSumReceived (db : DB) (poi : String) : Option ℚ :=
  let rows := db.receiptItems.filter
    (fun r => r.purchase_order_item == poi && r.docstatus == 1)
  if rows.isEmpty then none
  else some ((rows.map (fun r => r.qty)).sum)

/-- `_get_total_received_qty`:
`return flt(qty[0][0]) if qty and qty[0][0] else 0`
(both a `NULL` aggregate and a zero sum fall back to `0`). -/
def get_total_received_qty (db : DB) (poi : String) : ℚ :=
  match sqlSumReceived db poi with
  | none => 0
  | some q => if q = 0 then 0 else q

/-- `_find_existing_reminder`:
`frappe.db.get_value("Delivery Reminder", {"purchase_order_item": poi, "status": "Open"})`
returns the name of the matching row, if any. -/
def find_existing_reminder (db : DB) (poi : String) : Option String :=
  (db.reminders.find?
    (fun r => r.purchase_order_item == poi && r.status == RStatus.Open)).map
    (fun r => r.name)

/-- The pending quantity computed per line item in `_process_document`:
`flt(ordered_qty) - flt(total_received_qty)` where
`ordered_qty = frappe.db.get_value(...) or 0`. -/
def pending_qty_of (db : DB) (poi : String) : ℚ :=
  pyOrQ (getPOItemQty db poi) 0 - get_total_received_qty db poi

/-- `_calculate_priority`: percentage of the order still pending, mapped
through the configured thresholds.  The divisor is
`frappe.db.get_value(..., "qty") or 1`. -/
def calculate_priority (s : Settings) (db : DB) (pending_qty : ℚ)
    (po_item_name : String) : RPriority :=
  let ordered_qty := pyOrQ (getPOItemQty db po_item_name) 1
  let percent_pending := pending_qty / ordered_qty * 100
  if percent_pending ≥ (s.critical_priority_percentage.getD 80) then RPriority.Critical
  else if percent_pending ≥ (s.high_priority_percentage.getD 50) then RPriority.High
  else if percent_pending ≥ (s.medium_priority_percentage.getD 25) then RPriority.Medium
  else RPriority.Low

/-- `_update_reminder`:
`frappe.db.set_value("Delivery Reminder", name, "pending_qty", q)`
(which also bumps the `modified` timestamp), plus an "Updated" comment
(not modelled). -/
def update_reminder (today : ℤ) (db : DB) (reminder_name : String)
    (pending_qty : ℚ) : DB :=
  { db with reminders := db.reminders.map (fun r =>
      if r.name == reminder_name then
        { r with pending_qty := pending_qty, modified := today }
      else r) }

/-- `_close_reminder`:
`frappe.db.set_value("Delivery Reminder", name, "status", "Closed")`
(which also bumps `modified`), plus an "Auto-Closed" comment (not modelled). -/
def close_reminder (today : ℤ) (db : DB) (reminder_name : String) : DB :=
  { db with reminders := db.reminders.map (fun r =>
      if r.name == reminder_name then
        { r with status := RStatus.Closed, modified := today }
      else r) }

/-- `_create_reminder`: loads the parent Purchase Order with
`frappe.get_doc` (raises `DoesNotExistError` when missing, modelled as
`Except.error`), fills a new Delivery Reminder and inserts it. -/
def create_reminder (s : Settings) (today : ℤ) (db : DB)
    (item_row : ReceiptItem) (pending_qty : ℚ) (triggering_doc : ReceiptDoc) :
    Except String (DB × DeliveryReminder) :=
  match db.purchaseOrders.find? (fun po => po.name == item_row.purchase_order) with
  | none => Except.error ("DoesNotExistError: Purchase Order " ++ item_row.purchase_order)
  | some po_doc =>
    let poi := item_row.purchase_order_item.getD ("")
    let reminder : DeliveryReminder := {
      name := "DR-" ++ toString db.nextId
      purchase_order := item_row.purchase_order
      purchase_order_item := poi
      supplier := po_doc.supplier
      item_code := item_row.item_code
      pending_qty := pending_qty
      status := RStatus.Open
      auto_created := true
      triggering_receipt := triggering_doc.name
      expected_delivery_date := po_doc.schedule_date.getD (today + 7)
      priority := calculate_priority s db pending_qty poi
      reminder_level := RLevel.First
      next_follow_up_date := today + (s.default_follow_up_days.getD 3)
      modified := today }
    Except.ok
      ({ db with reminders := db.reminders ++ [reminder], nextId := db.nextId + 1 },
       reminder)

/-- One iteration of the `for item in doc.items` loop of `_process_document`,
threading the database and the list of reminders queued for the
consolidated notification. -/
def process_item (s : Settings) (today : ℤ) (doc : ReceiptDoc)
    (st : DB × List DeliveryReminder) (item : ReceiptItem) :
    Except String (DB × List DeliveryReminder) :=
  let db := st.1
  let notifs := st.2
  match item.purchase_order_item with
  | none => Except.ok (db, notifs)
  | some poi =>
    let pending_qty := pending_qty_of db poi
    let existing_reminder := find_existing_reminder db poi
    if pending_qty ≤ 0 then
      match existing_reminder with
      | some rname => Except.ok (close_reminder today db rname, notifs)
      | none => Except.ok (db, notifs)
    else
      match existing_reminder with
      | some rname => Except.ok (update_reminder today db rname pending_qty, notifs)
      | none =>
        match create_reminder s today db item pending_qty doc with
        | Except.error e => Except.error e
        | Except.ok (db2, r) => Except.ok (db2, notifs ++ [r])

/-- `_process_document`: folds the loop body over the receipt's line items.
The trailing `_send_consolidated_notifications` only creates
`Notification Log` records (a mail side channel outside `DB`). -/
def process_document (s : Settings) (today : ℤ) (db : DB) (doc : ReceiptDoc) :
    Except String DB :=
  match doc.items.foldlM (process_item s today doc) (db, []) with
  | Except.error e => Except.error e
  | Except.ok st => Except.ok st.1

/-- `ReminderManager.update_reminders_for_receipt`: gated on the
`enable_auto_reminders` settings flag. -/
def update_reminders_for_receipt (s : Settings) (today : ℤ) (db : DB)
    (doc : ReceiptDoc) : Except String DB :=
  if s.enable_auto_reminders then process_document s today db doc
  else Except.ok db

/-- `_escalate_overdue`: one sweep over the snapshot of Open reminders whose
`next_follow_up_date` is strictly before today; each is bumped to level
`Second` when currently `First` and to `Final` otherwise, its priority is
forced to `Critical` and its follow-up date is pushed out. -/
def escalate_overdue (s : Settings) (today : ℤ) (db : DB) : DB :=
  { db with reminders := db.reminders.map (fun r =>
      if r.status == RStatus.Open && decide (r.next_follow_up_date < today) then
        { r with
          reminder_level :=
            if r.reminder_level == RLevel.First then RLevel.Second else RLevel.Final
          priority := RPriority.Critical
          next_follow_up_date := today + (s.default_follow_up_days.getD 3)
          modified := today }
      else r) }

/-- `ReminderManager.escalate_overdue_reminders`: gated on
`auto_escalate_enabled`. -/
def escalate_overdue_reminders (s : Settings) (today : ℤ) (db : DB) : DB :=
  if s.auto_escalate_enabled then escalate_overdue s today db else db

/-- `_cleanup_closed`: selects the Closed reminders whose `modified` is
strictly before `today - cleanup_after_days`; the archive branch of the
loop is literally `pass` in the source (a placeholder that performs no
write), while the delete branch removes the record. -/
def cleanup_closed (s : Settings) (today : ℤ) (db : DB) : DB :=
  let cutoff_date := today - (s.cleanup_after_days.getD 180)
  if s.archive_closed_reminders then db
  else
    { db with reminders := db.reminders.filter (fun r =>
        !(r.status == RStatus.Closed && decide (r.modified < cutoff_date))) }

/-- `ReminderManager.cleanup_closed_reminders`: gated on
`auto_cleanup_enabled`. -/
def cleanup_closed_reminders (s : Settings) (today : ℤ) (db : DB) : DB :=
  if s.auto_cleanup_enabled then cleanup_closed s today db else db

/-- `_close_reminders_for_po`: closes every Open reminder of the given
Purchase Order (in the source: a `get_all` of the matching names, each
closed by name with `_close_reminder`). -/
def close_reminders_for_po (today : ℤ) (db : DB) (po_name : String) : DB :=
  { db with reminders := db.reminders.map (fun r =>
      if r.purchase_order == po_name && r.status == RStatus.Open then
        { r with status := RStatus.Closed, modified := today }
      else r) }

/-- `ReminderManager.handle_po_cancellation` (no settings gate). -/
def handle_po_cancellation (today : ℤ) (db : DB) (po_name : String) : DB :=
  close_reminders_for_po today db po_name

/-- Lookup of a Delivery Reminder row by primary key. -/
def getReminder (db : DB) (n : String) : Option DeliveryReminder :=
  db.reminders.find? (fun r => r.name == n)

/-- Numeric rank of a reminder level, for monotonicity statements. -/
def levelRank : RLevel → ℕ
  | RLevel.First => 0
  | RLevel.Second => 1
  | RLevel.Final => 2

/-- A row of the purchase-history result (`api.py`): the SQL columns plus
the two annotations the endpoint adds in its `for item in history` loop. -/
structure HistoryRow where
  purchase_order : String
  transaction_date : ℤ
  supplier : String
  item_code : String
  project : String
  qty : ℚ
  rate : ℚ
  amount : ℚ
  received_qty : ℚ
  pending_qty : ℚ
  delivery_status : String
deriving DecidableEq, Repr

/-- The framework cache (`frappe.cache()`), as a key/value association
list.  Expiry (`expires_in_sec`) is not modelled. -/
abbrev Cache := List (String × List HistoryRow)

/-- `frappe.cache().get_value(key)`. -/
def cacheGet (c : Cache) (k : String) : Option (List HistoryRow) :=
  (c.find? (fun p => p.1 == k)).map (fun p => p.2)

/-- `frappe.cache().set_value(key, value, ...)`. -/
def cacheSet (c : Cache) (k : String) (v : List HistoryRow) : Cache :=
  (k, v) :: c.filter (fun p => !(p.1 == k))

/-- Insertion into a list kept in descending `transaction_date` order
(the `ORDER BY po.transaction_date DESC` of the history query). -/
def insertDateDesc (r : HistoryRow) : List HistoryRow → List HistoryRow
  | [] => [r]
  | x :: xs =>
    if decide (x.transaction_date < r.transaction_date) then r :: x :: xs
    else x :: insertDateDesc r xs

/-- The purchase-history SQL of `get_item_project_history`:
`Purchase Order` INNER JOIN `Purchase Order Item` on `po.name = poi.parent`,
filtered by item code, project and company, ordered by transaction date
descending.  The two annotation fields are still blank here. -/
def historyQuery (db : DB) (item_code project company : String) :
    List HistoryRow :=
  let rows := db.poItems.filterMap (fun poi =>
    match db.purchaseOrders.find? (fun po => po.name == poi.parent) with
    | some po =>
      if poi.item_code == item_code && poi.project == project && po.company == company then
        some { purchase_order := po.name
               transaction_date := po.transaction_date
               supplier := po.supplier
               item_code := poi.item_code
               project := poi.project
               qty := poi.qty.getD 0
               rate := poi.rate
               amount := poi.amount
               received_qty := poi.received_qty
               pending_qty := 0
               delivery_status := "" }
      else none
    | none => none)
  rows.foldr insertDateDesc []

/-- The annotation loop of `get_item_project_history`:
`pending_qty = qty - received_qty`, `delivery_status` is `Completed` when
nothing is pending and `Pending` otherwise. -/
def annotateHistory (rows : List HistoryRow) : List HistoryRow :=
  rows.map (fun item =>
    let pq := item.qty - item.received_qty
    { item with
      pending_qty := pq
      delivery_status := if pq ≤ 0 then "Completed" else "Pending" })

/-- What a call of `get_item_project_history` sends back over the wire:
either a JSON list of rows, or the `{"error": ..., "trace": ...}` dict
built by its `except` clause. -/
inductive ApiResult where
  | rows (l : List HistoryRow)
  | errorDict (error : String) (trace : String)
deriving DecidableEq, Repr

/-- The `try:` body of `get_item_project_history`, with exceptions as
`Except.error`.  The f-string that builds `cache_key` (api.py line 21)
interpolates the name `supplier`, which is defined nowhere in the
function, so evaluating it raises a `NameError` at that point; the code
after it is unreachable at run time but translated all the same. -/
def api_body (s : Settings) (cache : Cache) (db : DB)
    (item_code project company : String) (limit : ℤ) :
    Except String (List HistoryRow × Cache) :=
  if item_code == "" || project == "" || company == "" then Except.ok ([], cache)
  else if !s.enable_purchase_history then Except.ok ([], cache)
  else
    let cache_duration := pyOrI s.history_cache_duration 600
    let limit := pyOrI (some limit) (pyOrI s.max_history_items 5)
    match (Except.error ("NameError: name supplier is not defined") :
        Except String String) with
    | Except.error e => Except.error e
    | Except.ok supplier =>
      let cache_key := "item_history_" ++ item_code ++ "_" ++ project ++ "_" ++
        company ++ "_" ++ supplier ++ "_" ++ toString limit
      match (cacheGet cache cache_key).filter (fun l => !l.isEmpty) with
      | some cached_result => Except.ok (cached_result, cache)
      | none =>
        let history := annotateHistory (historyQuery db item_code project company)
        Except.ok (history, cacheSet cache cache_key history)

/-- `get_item_project_history` with its `try/except Exception` wrapper:
a caught exception is logged and turned into an error dict whose `trace`
carries the formatted traceback. -/
def get_item_project_history (s : Settings) (cache : Cache) (db : DB)
    (item_code project company : String) (limit : ℤ) : ApiResult × Cache :=
  match api_body s cache db item_code project company limit with
  | Except.ok lc => (ApiResult.rows lc.1, lc.2)
  | Except.error e => (ApiResult.errorDict e ("Traceback (most recent call last): " ++ e), cache)

/-- The pending quantity as the specification words it: the ordered
quantity of the PO item minus the cumulative received quantity summed
across all submitted (`docstatus = 1`) purchase-receipt items for that PO
item, a missing ordered quantity or an empty receipt sum read as `0`.
Stated from the spec, to be compared against `pending_qty_of`. -/
def pending_qty_spec (db : DB) (poi : String) : ℚ :=
  (getPOItemQty db poi).getD 0 -
    ((db.receiptItems.filter
        (fun r => r.purchase_order_item == poi && r.docstatus == 1)).map
      (fun r => r.qty)).sum

/-! Concrete sample rows used by the witness checks below. -/

/-- Sample Purchase Order. -/
def samplePO : PurchaseOrder :=
  { name := "PO-1", supplier := "ACME", company := "CO", owner := "buyer",
    transaction_date := 10, schedule_date := some 120 }

/-- Sample PO item that has been fully received (10 of 10). -/
def samplePOItemA : POItem :=
  { name := "POI-A", parent := "PO-1", item_code := "ITM-A", project := "PRJ",
    qty := some 10, rate := 2, amount := 20, received_qty := 10 }

/-- Sample PO item that has been partially received (4 of 10). -/
def samplePOItemB : POItem :=
  { name := "POI-B", parent := "PO-1", item_code := "ITM-B", project := "PRJ",
    qty := some 10, rate := 3, amount := 30, received_qty := 4 }

/-- Sample PO item that has been partially received (3 of 8) and has no
reminder yet. -/
def samplePOItemC : POItem :=
  { name := "POI-C", parent := "PO-1", item_code := "ITM-C", project := "PRJ",
    qty := some 8, rate := 1, amount := 8, received_qty := 3 }

/-- Sample PO item whose ordered quantity is zero (divisor guard case). -/
def samplePOItemZ : POItem :=
  { name := "POI-Z", parent := "PO-1", item_code := "ITM-Z", project := "PRJ",
    qty := some 0, rate := 1, amount := 0, received_qty := 0 }

/-- Sample Open reminder for `POI-A`. -/
def sampleReminderA : DeliveryReminder :=
  { name := "R-A", purchase_order := "PO-1", purchase_order_item := "POI-A",
    supplier := "ACME", item_code := "ITM-A", pending_qty := 10,
    status := RStatus.Open, auto_created := true, triggering_receipt := "PR-0",
    expected_delivery_date := 120, priority := RPriority.Critical,
    reminder_level := RLevel.First, next_follow_up_date := 90, modified := 80 }

/-- Sample Open reminder for `POI-B`. -/
def sampleReminderB : DeliveryReminder :=
  { sampleReminderA with
    name := "R-B", purchase_order_item := "POI-B", item_code := "ITM-B" }

/-- Sample long-Closed reminder, last modified well before any cutoff. -/
def sampleClosedReminder : DeliveryReminder :=
  { sampleReminderA with
    name := "R-OLD", purchase_order_item := "POI-OLD",
    status := RStatus.Closed, reminder_level := RLevel.Final, modified := -300 }

/-- Sample database. -/
def sampleDB : DB :=
  { purchaseOrders := [samplePO]
    poItems := [samplePOItemA, samplePOItemB, samplePOItemC, samplePOItemZ]
    receiptItems :=
      [ { purchase_order_item := "POI-A", docstatus := 1, qty := 10 },
        { purchase_order_item := "POI-B", docstatus := 1, qty := 4 },
        { purchase_order_item := "POI-B", docstatus := 0, qty := 100 },
        { purchase_order_item := "POI-C", docstatus := 1, qty := 3 } ]
    reminders := [sampleReminderA, sampleReminderB, sampleClosedReminder]
    nextId := 7 }

/-- Sample settings with every feature flag on, threshold keys absent
(so the in-code defaults apply) and deletion rather than archival. -/
def sampleSettings : Settings :=
  { enable_auto_reminders := true, auto_escalate_enabled := true,
    send_daily_digest := false, auto_cleanup_enabled := true,
    archive_closed_reminders := false, default_follow_up_days := none,
    critical_priority_percentage := none, high_priority_percentage := none,
    medium_priority_percentage := none, cleanup_after_days := none,
    enable_purchase_history := true, history_cache_duration := none,
    max_history_items := none }

/-- Sample submitted receipt touching an unlinked row and `POI-A/B/C`. -/
def sampleReceipt : ReceiptDoc :=
  { doctype := "Purchase Receipt", name := "PR-1",
    items :=
      [ { purchase_order_item := none, purchase_order := "PO-1", item_code := "FREE" },
        { purchase_order_item := some ("POI-A"), purchase_order := "PO-1", item_code := "ITM-A" },
        { purchase_order_item := some ("POI-B"), purchase_order := "PO-1", item_code := "ITM-B" },
        { purchase_order_item := some ("POI-C"), purchase_order := "PO-1", item_code := "ITM-C" } ] }

/-- The reminder `_create_reminder` builds for `POI-C` out of `sampleDB`
on day 100: 5 of 8 pending is 62.5 percent, hence priority High. -/
def sampleCreatedReminder : DeliveryReminder :=
  { name := "DR-7", purchase_order := "PO-1", purchase_order_item := "POI-C",
    supplier := "ACME", item_code := "ITM-C", pending_qty := 5,
    status := RStatus.Open, auto_created := true, triggering_receipt := "PR-1",
    expected_delivery_date := 120, priority := RPriority.High,
    reminder_level := RLevel.First, next_follow_up_date := 103, modified := 100 }

/-! Helper lemmas shared by several claim theorems. -/

theorem pyOrQ_eq_getD_zero (v : Option ℚ) : pyOrQ v 0 = v.getD 0 := by
  cases v with
  | none => rfl
  | some x =>
    by_cases hx : x = 0
    · simp [pyOrQ, hx]
    · simp [pyOrQ, hx]

theorem get_total_received_eq_sum (db : DB) (poi : String) :
    get_total_received_qty db poi =
      ((db.receiptItems.filter
          (fun r => r.purchase_order_item == poi && r.docstatus == 1)).map
        (fun r => r.qty)).sum := by
  unfold get_total_received_qty sqlSumReceived
  by_cases he :
      (db.receiptItems.filter
        (fun r => r.purchase_order_item == poi && r.docstatus == 1)).isEmpty
  · rw [List.isEmpty_iff] at he
    simp [he]
  · simp only [he, if_false]
    by_cases h0 :
        ((db.receiptItems.filter
            (fun r => r.purchase_order_item == poi && r.docstatus == 1)).map
          (fun r => r.qty)).sum = 0
    · simp [h0]
    · simp [h0]

/-! Claim theorems. -/

/-- Claim C2: the pending quantity used by the reminder lifecycle equals
the ordered quantity of the PO item minus the cumulative received
quantity over all submitted purchase-receipt items for it, missing
values read as zero. -/
theorem pending_qty_refines_spec (db : DB) (poi : String) :
    pending_qty_of db poi = pending_qty_spec db poi := by
  unfold pending_qty_of pending_qty_spec
  rw [pyOrQ_eq_getD_zero, get_total_received_eq_sum]

/-- Claim C5: the priority classifier maps the pending percentage
(pending divided by ordered, times 100) through the configured
thresholds: Critical at or above the critical threshold (default 80),
otherwise High at or above the high threshold (default 50), otherwise
Medium at or above the medium threshold (default 25), otherwise Low. -/
theorem calculate_priority_thresholds (s : Settings) (db : DB)
    (pending_qty : ℚ) (poi : String) :
    (calculate_priority s db pending_qty poi = RPriority.Critical ↔
      pending_qty / pyOrQ (getPOItemQty db poi) 1 * 100 ≥
        s.critical_priority_percentage.getD 80) ∧
    (calculate_priority s db pending_qty poi = RPriority.High ↔
      ¬(pending_qty / pyOrQ (getPOItemQty db poi) 1 * 100 ≥
          s.critical_priority_percentage.getD 80) ∧
      pending_qty / pyOrQ (getPOItemQty db poi) 1 * 100 ≥
        s.high_priority_percentage.getD 50) ∧
    (calculate_priority s db pending_qty poi = RPriority.Medium ↔
      ¬(pending_qty / pyOrQ (getPOItemQty db poi) 1 * 100 ≥
          s.critical_priority_percentage.getD 80) ∧
      ¬(pending_qty / pyOrQ (getPOItemQty db poi) 1 * 100 ≥
          s.high_priority_percentage.getD 50) ∧
      pending_qty / pyOrQ (getPOItemQty db poi) 1 * 100 ≥
        s.medium_priority_percentage.getD 25) ∧
    (calculate_priority s db pending_qty poi = RPriority.Low ↔
      ¬(pending_qty / pyOrQ (getPOItemQty db poi) 1 * 100 ≥
          s.critical_priority_percentage.getD 80) ∧
      ¬(pending_qty / pyOrQ (getPOItemQty db poi) 1 * 100 ≥
          s.high_priority_percentage.getD 50) ∧
      ¬(pending_qty / pyOrQ (getPOItemQty db poi) 1 * 100 ≥
          s.medium_priority_percentage.getD 25)) := by
  simp only [calculate_priority]
  split_ifs with h1 h2 h3 <;> simp_all

/-- Claim C10: the priority classifier never divides by zero — the
divisor `get_value(..., "qty") or 1` is `1` whenever the looked-up
ordered quantity is missing or zero, is never `0`, and the classifier
returns one of the four tiers for every input. -/
theorem calculate_priority_divisor_safe (s : Settings) (db : DB)
    (pending_qty : ℚ) (poi : String) :
    pyOrQ (getPOItemQty db poi) 1 ≠ 0 ∧
    ((getPOItemQty db poi = none ∨ getPOItemQty db poi = some 0) →
      pyOrQ (getPOItemQty db poi) 1 = 1) ∧
    (calculate_priority s db pending_qty poi = RPriority.Critical ∨
     calculate_priority s db pending_qty poi = RPriority.High ∨
     calculate_priority s db pending_qty poi = RPriority.Medium ∨
     calculate_priority s db pending_qty poi = RPriority.Low) := by
  refine ⟨?_, ?_, ?_⟩
  · unfold pyOrQ
    cases h : getPOItemQty db poi with
    | none => simp
    | some x =>
      by_cases hx : x = 0
      · simp [hx]
      · simp [hx]
  · rintro (h | h) <;> simp [pyOrQ, h]
  · simp only [calculate_priority]
    split_ifs <;> simp

/-- Claim C10 witness: on `POI-Z` the stored ordered quantity is zero,
the divisor falls back to `1`, and a pending quantity of 5 classifies as
one of the four tiers. -/
theorem calculate_priority_divisor_safe_witness :
    pyOrQ (getPOItemQty sampleDB ("POI-Z")) 1 = 1 ∧
    (calculate_priority sampleSettings sampleDB 5 ("POI-Z") = RPriority.Critical ∨
     calculate_priority sampleSettings sampleDB 5 ("POI-Z") = RPriority.High ∨
     calculate_priority sampleSettings sampleDB 5 ("POI-Z") = RPriority.Medium ∨
     calculate_priority sampleSettings sampleDB 5 ("POI-Z") = RPriority.Low) :=
  ⟨(calculate_priority_divisor_safe sampleSettings sampleDB 5 ("POI-Z")).2.1
      (Or.inr (by decide)),
   (calculate_priority_divisor_safe sampleSettings sampleDB 5 ("POI-Z")).2.2⟩

/-- Claim C9: on a partial receipt, updating an existing Open reminder
writes only its `pending_qty` (the `set_value` also bumps `modified`);
status, priority, reminder level, follow-up date and expected delivery
date are untouched, and rows with another name are untouched entirely. -/
theorem update_reminder_frame (today : ℤ) (db : DB) (rname : String) (q : ℚ)
    (i : ℕ) (hi : i < db.reminders.length)
    (hi2 : i < (update_reminder today db rname q).reminders.length) :
    ((update_reminder today db rname q).reminders[i].status = db.reminders[i].status ∧
     (update_reminder today db rname q).reminders[i].priority = db.reminders[i].priority ∧
     (update_reminder today db rname q).reminders[i].reminder_level = db.reminders[i].reminder_level ∧
     (update_reminder today db rname q).reminders[i].next_follow_up_date = db.reminders[i].next_follow_up_date ∧
     (update_reminder today db rname q).reminders[i].expected_delivery_date = db.reminders[i].expected_delivery_date) ∧
    (db.reminders[i].name = rname →
      (update_reminder today db rname q).reminders[i].pending_qty = q) ∧
    (¬ db.reminders[i].name = rname →
      (update_reminder today db rname q).reminders[i] = db.reminders[i]) := by
  have hmap : (update_reminder today db rname q).reminders =
      db.reminders.map (fun r =>
        if r.name == rname then { r with pending_qty := q, modified := today } else r) := rfl
  simp only [hmap, List.getElem_map]
  by_cases hn : db.reminders[i].name = rname
  · simp [hn]
  · simp [hn]

/-- Claim C9 witness: updating `R-B` to 6 on day 100 leaves the row's
status, priority, level and dates as they were and sets its pending
quantity to 6. -/
theorem update_reminder_frame_witness :
    ((update_reminder 100 sampleDB ("R-B") 6).reminders[1].status =
        sampleDB.reminders[1].status ∧
     (update_reminder 100 sampleDB ("R-B") 6).reminders[1].priority =
        sampleDB.reminders[1].priority ∧
     (update_reminder 100 sampleDB ("R-B") 6).reminders[1].reminder_level =
        sampleDB.reminders[1].reminder_level ∧
     (update_reminder 100 sampleDB ("R-B") 6).reminders[1].next_follow_up_date =
        sampleDB.reminders[1].next_follow_up_date ∧
     (update_reminder 100 sampleDB ("R-B") 6).reminders[1].expected_delivery_date =
        sampleDB.reminders[1].expected_delivery_date) ∧
    (update_reminder 100 sampleDB ("R-B") 6).reminders[1].pending_qty = 6 :=
  ⟨(update_reminder_frame 100 sampleDB ("R-B") 6 1 (by decide) (by decide)).1,
   (update_reminder_frame 100 sampleDB ("R-B") 6 1 (by decide) (by decide)).2.1
      (by decide)⟩

/-- Claim C3: escalation never lowers a reminder level; an Open reminder
whose follow-up date lies strictly before today moves from First to
Second and from any other level to Final, and a reminder that is not an
Open overdue one is left entirely unchanged. -/
theorem escalation_level_monotone (s : Settings) (today : ℤ) (db : DB)
    (i : ℕ) (hi : i < db.reminders.length)
    (hi2 : i < (escalate_overdue s today db).reminders.length) :
    levelRank db.reminders[i].reminder_level ≤
      levelRank (escalate_overdue s today db).reminders[i].reminder_level ∧
    (db.reminders[i].status = RStatus.Open →
      db.reminders[i].next_follow_up_date < today →
      (db.reminders[i].reminder_level = RLevel.First →
        (escalate_overdue s today db).reminders[i].reminder_level = RLevel.Second) ∧
      (¬ db.reminders[i].reminder_level = RLevel.First →
        (escalate_overdue s today db).reminders[i].reminder_level = RLevel.Final)) ∧
    (¬ (db.reminders[i].status = RStatus.Open ∧
        db.reminders[i].next_follow_up_date < today) →
      (escalate_overdue s today db).reminders[i] = db.reminders[i]) := by
  have key : (escalate_overdue s today db).reminders[i] =
      if db.reminders[i].status == RStatus.Open &&
          decide (db.reminders[i].next_follow_up_date < today) then
        { db.reminders[i] with
          reminder_level :=
            if db.reminders[i].reminder_level == RLevel.First then RLevel.Second
            else RLevel.Final
          priority := RPriority.Critical
          next_follow_up_date := today + (s.default_follow_up_days.getD 3)
          modified := today }
      else db.reminders[i] := by
    simp only [escalate_overdue, List.getElem_map]
  rw [key]
  by_cases hcond : (db.reminders[i].status == RStatus.Open &&
      decide (db.reminders[i].next_follow_up_date < today)) = true
  · rw [if_pos hcond]
    simp only [Bool.and_eq_true, beq_iff_eq, decide_eq_true_eq] at hcond
    obtain ⟨h1, h2⟩ := hcond
    refine ⟨?_, ?_, ?_⟩
    · cases hl : db.reminders[i].reminder_level <;> simp [levelRank, hl]
    · intro _ _
      constructor
      · intro hl
        simp [hl]
      · intro hl
        cases hl2 : db.reminders[i].reminder_level <;> simp_all
    · intro h3
      exact absurd ⟨h1, h2⟩ h3
  · rw [if_neg hcond]
    simp only [Bool.and_eq_true, beq_iff_eq, decide_eq_true_eq] at hcond
    refine ⟨le_refl _, ?_, fun _ => rfl⟩
    intro h1 h2
    exact absurd ⟨h1, h2⟩ hcond

/-- Claim C3 witness: on day 100, the Open reminder `R-A` (follow-up due
day 90, level First) is escalated to level Second, not lowered. -/
theorem escalation_level_monotone_witness :
    levelRank (sampleDB.reminders.get ⟨0, by decide⟩).reminder_level ≤
      levelRank ((escalate_overdue sampleSettings 100 sampleDB).reminders.get
        ⟨0, by decide⟩).reminder_level ∧
    ((escalate_overdue sampleSettings 100 sampleDB).reminders.get
        ⟨0, by decide⟩).reminder_level = RLevel.Second := by
  have h := escalation_level_monotone sampleSettings 100 sampleDB 0 (by decide) (by decide)
  exact ⟨h.1, (h.2.1 (by decide) (by decide)).1 (by decide)⟩

/-- Claim C6 (code divergence): `R-OLD` is Closed and was last modified
before the `today - 180` cutoff, so by the spec it should be archived
when `archive_closed_reminders` is on — but the archive branch of
`_cleanup_closed` is a `pass` placeholder, so the sweep leaves the whole
database untouched.  With the flag off, the same row is deleted while
the in-window rows survive, as specified. -/
theorem cleanup_archive_branch_is_noop :
    sampleClosedReminder.status = RStatus.Closed ∧
    sampleClosedReminder.modified < 100 - (180 : ℤ) ∧
    cleanup_closed_reminders
      { sampleSettings with archive_closed_reminders := true } 100 sampleDB = sampleDB ∧
    (cleanup_closed_reminders sampleSettings 100 sampleDB).reminders =
      [sampleReminderA, sampleReminderB] :=
  ⟨rfl, by decide, rfl, rfl⟩

/-- Claim C7 (code divergence): with non-empty arguments and purchase
history enabled, `get_item_project_history` never reaches its query or
cache write — building `cache_key` raises `NameError` on the undefined
name `supplier`, the handler returns the error dict and the cache is
left empty. -/
theorem history_endpoint_hits_name_error :
    get_item_project_history sampleSettings [] sampleDB ("ITM-A") ("PRJ") ("CO") 5 =
      (ApiResult.errorDict ("NameError: name supplier is not defined")
        ("Traceback (most recent call last): NameError: name supplier is not defined"),
       []) :=
  rfl

/-- Claim C8: the endpoint never lets an exception escape — an empty
required argument or a disabled setting yields the empty list, and every
call returns either a row list or the error dict built by the handler. -/
theorem history_endpoint_total (s : Settings) (cache : Cache) (db : DB)
    (item_code project company : String) (limit : ℤ) :
    ((item_code = "" ∨ project = "" ∨ company = "") →
      get_item_project_history s cache db item_code project company limit =
        (ApiResult.rows [], cache)) ∧
    (s.enable_purchase_history = false →
      get_item_project_history s cache db item_code project company limit =
        (ApiResult.rows [], cache)) ∧
    ((∃ l, (get_item_project_history s cache db item_code project company limit).1 =
        ApiResult.rows l) ∨
     (∃ e t, (get_item_project_history s cache db item_code project company limit).1 =
        ApiResult.errorDict e t)) := by
  refine ⟨?_, ?_, ?_⟩
  · intro h
    have hb : (item_code == "" || project == "" || company == "") = true := by
      rcases h with h | h | h <;> simp [h]
    simp [get_item_project_history, api_body, hb]
  · intro h
    by_cases hb : (item_code == "" || project == "" || company == "") = true
    · simp [get_item_project_history, api_body, hb]
    · simp [get_item_project_history, api_body, hb, h]
  · rcases hbody : api_body s cache db item_code project company limit with e | lc
    · right
      refine ⟨e, "Traceback (most recent call last): " ++ e, ?_⟩
      simp [get_item_project_history, hbody]
    · left
      refine ⟨lc.1, ?_⟩
      simp [get_item_project_history, hbody]

/-- Claim C8 witness: a call with an empty `project` returns the empty
list, and a call with history disabled returns the empty list. -/
theorem history_endpoint_total_witness :
    get_item_project_history sampleSettings [] sampleDB ("ITM-A") ("") ("CO") 5 =
      (ApiResult.rows [], []) ∧
    get_item_project_history
      { sampleSettings with enable_purchase_history := false }
      [] sampleDB ("ITM-A") ("PRJ") ("CO") 5 = (ApiResult.rows [], []) :=
  ⟨(history_endpoint_total sampleSettings [] sampleDB ("ITM-A") ("") ("CO") 5).1
      (Or.inr (Or.inl rfl)),
   (history_endpoint_total
      { sampleSettings with enable_purchase_history := false }
      [] sampleDB ("ITM-A") ("PRJ") ("CO") 5).2.1 rfl⟩

/-- Claim C1: per line item of a processed receipt (with auto reminders
enabled the hook runs the sweep): an unlinked line item is left alone; a
non-positive pending quantity closes the existing Open reminder; a
positive pending quantity updates the existing Open reminder's pending
quantity; and a positive pending quantity with no Open reminder inserts
a fresh reminder with status Open and level First. -/
theorem receipt_lifecycle (s : Settings) (today : ℤ) (db : DB)
    (doc : ReceiptDoc) (ns : List DeliveryReminder) (item : ReceiptItem) :
    (s.enable_auto_reminders = true →
      update_reminders_for_receipt s today db doc = process_document s today db doc) ∧
    (item.purchase_order_item = none →
      process_item s today doc (db, ns) item = Except.ok (db, ns)) ∧
    (∀ poi rname, item.purchase_order_item = some poi →
      pending_qty_of db poi ≤ 0 →
      find_existing_reminder db poi = some rname →
      ∃ db2, process_item s today doc (db, ns) item = Except.ok (db2, ns) ∧
        ∀ r2 ∈ db2.reminders, r2.name = rname → r2.status = RStatus.Closed) ∧
    (∀ poi rname, item.purchase_order_item = some poi →
      0 < pending_qty_of db poi →
      find_existing_reminder db poi = some rname →
      ∃ db2, process_item s today doc (db, ns) item = Except.ok (db2, ns) ∧
        ∀ r2 ∈ db2.reminders, r2.name = rname →
          r2.pending_qty = pending_qty_of db poi) ∧
    (∀ poi po_doc, item.purchase_order_item = some poi →
      0 < pending_qty_of db poi →
      find_existing_reminder db poi = none →
      db.purchaseOrders.find? (fun po => po.name == item.purchase_order) = some po_doc →
      ∃ r2, process_item s today doc (db, ns) item =
          Except.ok
            ({ db with
                reminders := db.reminders ++ [r2]
                nextId := db.nextId + 1 },
             ns ++ [r2]) ∧
        r2.status = RStatus.Open ∧ r2.reminder_level = RLevel.First ∧
        r2.purchase_order_item = poi ∧
        r2.pending_qty = pending_qty_of db poi) := by
  refine ⟨?_, ?_, ?_, ?_, ?_⟩
  · intro h
    simp [update_reminders_for_receipt, h]
  · intro h
    simp [process_item, h]
  · intro poi rname hpoi hle hfind
    refine ⟨close_reminder today db rname, ?_, ?_⟩
    · simp [process_item, hpoi, hle, hfind]
    · intro r2 hmem hname
      simp only [close_reminder] at hmem
      rcases List.mem_map.mp hmem with ⟨a, ha, rfl⟩
      by_cases hn : (a.name == rname) = true
      · simp [hn]
      · simp only [hn, Bool.false_eq_true, if_false] at hname ⊢
        rw [hname] at hn
        simp at hn
  · intro poi rname hpoi hpos hfind
    have hnle : ¬ pending_qty_of db poi ≤ 0 := not_le.mpr hpos
    refine ⟨update_reminder today db rname (pending_qty_of db poi), ?_, ?_⟩
    · simp [process_item, hpoi, hnle, hfind]
    · intro r2 hmem hname
      simp only [update_reminder] at hmem
      rcases List.mem_map.mp hmem with ⟨a, ha, rfl⟩
      by_cases hn : (a.name == rname) = true
      · simp [hn]
      · simp only [hn, Bool.false_eq_true, if_false] at hname ⊢
        rw [hname] at hn
        simp at hn
  · intro poi po_doc hpoi hpos hfind hpo
    have hnle : ¬ pending_qty_of db poi ≤ 0 := not_le.mpr hpos
    refine ⟨{ name := "DR-" ++ toString db.nextId
              purchase_order := item.purchase_order
              purchase_order_item := item.purchase_order_item.getD ("")
              supplier := po_doc.supplier
              item_code := item.item_code
              pending_qty := pending_qty_of db poi
              status := RStatus.Open
              auto_created := true
              triggering_receipt := doc.name
              expected_delivery_date := po_doc.schedule_date.getD (today + 7)
              priority := calculate_priority s db (pending_qty_of db poi)
                (item.purchase_order_item.getD (""))
              reminder_level := RLevel.First
              next_follow_up_date := today + (s.default_follow_up_days.getD 3)
              modified := today }, ?_, rfl, rfl, ?_, rfl⟩
    · simp [process_item, hpoi, hnle, hfind, create_reminder, hpo]
    · simp [hpoi]

/-- Claim C1 witness: on the sample world at day 100 — the unlinked line
item changes nothing; the fully received `POI-A` closes `R-A`; the
partially received `POI-B` sets the pending quantity of `R-B`; the
reminder-less `POI-C` gets a fresh Open, level-First reminder appended;
and the enabled hook runs the sweep. -/
theorem receipt_lifecycle_witness :
    (update_reminders_for_receipt sampleSettings 100 sampleDB sampleReceipt =
      process_document sampleSettings 100 sampleDB sampleReceipt) ∧
    (process_item sampleSettings 100 sampleReceipt (sampleDB, [])
        { purchase_order_item := none, purchase_order := "PO-1", item_code := "FREE" } =
      Except.ok (sampleDB, [])) ∧
    (∃ db2, process_item sampleSettings 100 sampleReceipt (sampleDB, [])
        { purchase_order_item := some ("POI-A"), purchase_order := "PO-1",
          item_code := "ITM-A" } = Except.ok (db2, []) ∧
      ∀ r2 ∈ db2.reminders, r2.name = "R-A" → r2.status = RStatus.Closed) ∧
    (∃ db2, process_item sampleSettings 100 sampleReceipt (sampleDB, [])
        { purchase_order_item := some ("POI-B"), purchase_order := "PO-1",
          item_code := "ITM-B" } = Except.ok (db2, []) ∧
      ∀ r2 ∈ db2.reminders, r2.name = "R-B" →
        r2.pending_qty = pending_qty_of sampleDB ("POI-B")) ∧
    (∃ r2, process_item sampleSettings 100 sampleReceipt (sampleDB, [])
        { purchase_order_item := some ("POI-C"), purchase_order := "PO-1",
          item_code := "ITM-C" } =
        Except.ok
          ({ sampleDB with
              reminders := sampleDB.reminders ++ [r2]
              nextId := sampleDB.nextId + 1 },
           [] ++ [r2]) ∧
      r2.status = RStatus.Open ∧ r2.reminder_level = RLevel.First ∧
      r2.purchase_order_item = "POI-C" ∧
      r2.pending_qty = pending_qty_of sampleDB ("POI-C")) := by
  have hqA : getPOItemQty sampleDB ("POI-A") = some 10 := rfl
  have hfA : sampleDB.receiptItems.filter
      (fun r => r.purchase_order_item == "POI-A" && r.docstatus == 1) =
      [{ purchase_order_item := "POI-A", docstatus := 1, qty := 10 }] := rfl
  have hpendA : pending_qty_of sampleDB ("POI-A") ≤ 0 := by
    rw [pending_qty_of, pyOrQ_eq_getD_zero, get_total_received_eq_sum, hfA, hqA]
    norm_num
  have hqB : getPOItemQty sampleDB ("POI-B") = some 10 := rfl
  have hfB : sampleDB.receiptItems.filter
      (fun r => r.purchase_order_item == "POI-B" && r.docstatus == 1) =
      [{ purchase_order_item := "POI-B", docstatus := 1, qty := 4 }] := rfl
  have hpendB : 0 < pending_qty_of sampleDB ("POI-B") := by
    rw [pending_qty_of, pyOrQ_eq_getD_zero, get_total_received_eq_sum, hfB, hqB]
    norm_num
  have hqC : getPOItemQty sampleDB ("POI-C") = some 8 := rfl
  have hfC : sampleDB.receiptItems.filter
      (fun r => r.purchase_order_item == "POI-C" && r.docstatus == 1) =
      [{ purchase_order_item := "POI-C", docstatus := 1, qty := 3 }] := rfl
  have hpendC : 0 < pending_qty_of sampleDB ("POI-C") := by
    rw [pending_qty_of, pyOrQ_eq_getD_zero, get_total_received_eq_sum, hfC, hqC]
    norm_num
  refine ⟨?_, ?_, ?_, ?_, ?_⟩
  · exact (receipt_lifecycle sampleSettings 100 sampleDB sampleReceipt []
      { purchase_order_item := none, purchase_order := "PO-1", item_code := "FREE" }).1 rfl
  · exact (receipt_lifecycle sampleSettings 100 sampleDB sampleReceipt []
      { purchase_order_item := none, purchase_order := "PO-1", item_code := "FREE" }).2.1 rfl
  · exact (receipt_lifecycle sampleSettings 100 sampleDB sampleReceipt []
      { purchase_order_item := some ("POI-A"), purchase_order := "PO-1",
        item_code := "ITM-A" }).2.2.1 ("POI-A") ("R-A") rfl hpendA (by decide)
  · exact (receipt_lifecycle sampleSettings 100 sampleDB sampleReceipt []
      { purchase_order_item := some ("POI-B"), purchase_order := "PO-1",
        item_code := "ITM-B" }).2.2.2.1 ("POI-B") ("R-B") rfl hpendB (by decide)
  · exact (receipt_lifecycle sampleSettings 100 sampleDB sampleReceipt []
      { purchase_order_item := some ("POI-C"), purchase_order := "PO-1",
        item_code := "ITM-C" }).2.2.2.2 ("POI-C") samplePO rfl hpendC (by decide) rfl

theorem find?_name_map (l : List DeliveryReminder)
    (f : DeliveryReminder → DeliveryReminder)
    (hname : ∀ r, (f r).name = r.name) (n : String) :
    (l.map f).find? (fun r => r.name == n) =
      (l.find? (fun r => r.name == n)).map f := by
  have hp : ((fun r : DeliveryReminder => r.name == n) ∘ f) =
      (fun r : DeliveryReminder => r.name == n) := by
    funext r
    simp [Function.comp, hname r]
  rw [List.find?_map, hp]

theorem getReminder_map_closed (db : DB)
    (f : DeliveryReminder → DeliveryReminder)
    (hname : ∀ r, (f r).name = r.name)
    (hstat : ∀ r, r.status = RStatus.Closed → (f r).status = RStatus.Closed)
    (n : String)
    (h : (getReminder db n).map (fun r => r.status) = some RStatus.Closed) :
    (getReminder { db with reminders := db.reminders.map f } n).map
      (fun r => r.status) = some RStatus.Closed := by
  unfold getReminder at h ⊢
  show ((db.reminders.map f).find? (fun r => r.name == n)).map
    (fun r => r.status) = some RStatus.Closed
  rw [find?_name_map db.reminders f hname n]
  rcases hfind : db.reminders.find? (fun r => r.name == n) with _ | r
  · rw [hfind] at h
    cases h
  · rw [hfind] at h
    rw [hfind]
    simp at h
    simp [hstat r h]

theorem getReminder_append_closed (db : DB) (rs : List DeliveryReminder)
    (n : String)
    (h : (getReminder db n).map (fun r => r.status) = some RStatus.Closed) :
    (getReminder { db with reminders := db.reminders ++ rs } n).map
      (fun r => r.status) = some RStatus.Closed := by
  unfold getReminder at h ⊢
  show (((db.reminders ++ rs).find? (fun r => r.name == n)).map
    (fun r => r.status)) = some RStatus.Closed
  rcases hfind : db.reminders.find? (fun r => r.name == n) with _ | r
  · rw [hfind] at h
    cases h
  · rw [List.find?_append, hfind]
    rw [hfind] at h
    simpa using h

theorem find?_name_filter (l : List DeliveryReminder)
    (keep : DeliveryReminder → Bool) (n : String) (r : DeliveryReminder)
    (hnd : (l.map (fun x => x.name)).Nodup)
    (h : l.find? (fun x => x.name == n) = some r) :
    (l.filter keep).find? (fun x => x.name == n) =
      (if keep r then some r else none) := by
  induction l with
  | nil => cases h
  | cons a l ih =>
    rw [List.map_cons, List.nodup_cons] at hnd
    obtain ⟨hna, hnd2⟩ := hnd
    cases hb : (a.name == n) with
    | false =>
      simp only [List.find?, hb] at h
      rw [List.filter_cons]
      by_cases hk : keep a = true
      · rw [if_pos hk]
        simp only [List.find?, hb]
        exact ih hnd2 h
      · rw [if_neg hk]
        exact ih hnd2 h
    | true =>
      simp only [List.find?, hb] at h
      injection h with h
      subst h
      have hnone : ∀ x ∈ l, (x.name == n) = false := by
        intro x hx
        cases hxn : (x.name == n) with
        | false => rfl
        | true =>
          exfalso
          apply hna
          rw [List.mem_map]
          exact ⟨x, hx, by rw [eq_of_beq hxn, eq_of_beq hb]⟩
      rw [List.filter_cons]
      by_cases hk : keep a = true
      · rw [if_pos hk, if_pos hk]
        simp only [List.find?, hb]
      · rw [if_neg hk, if_neg hk]
        rw [List.find?_eq_none]
        intro x hx
        simp [hnone x (List.mem_of_mem_filter hx)]

theorem process_item_keeps_closed (s : Settings) (today : ℤ) (doc : ReceiptDoc)
    (st st2 : DB × List DeliveryReminder) (item : ReceiptItem)
    (h : process_item s today doc st item = Except.ok st2) (n : String)
    (hc : (getReminder st.1 n).map (fun r => r.status) = some RStatus.Closed) :
    (getReminder st2.1 n).map (fun r => r.status) = some RStatus.Closed := by
  rcases st with ⟨db, ns⟩
  rcases hpoi : item.purchase_order_item with _ | poi
  · simp only [process_item, hpoi, Except.ok.injEq] at h
    rw [← h]
    exact hc
  · by_cases hle : pending_qty_of db poi ≤ 0
    · rcases hfind : find_existing_reminder db poi with _ | rname
      · simp only [process_item, hpoi, hfind, hle, if_true, Except.ok.injEq] at h
        rw [← h]
        exact hc
      · simp only [process_item, hpoi, hfind, hle, if_true, Except.ok.injEq] at h
        rw [← h]
        show (getReminder (close_reminder today db rname) n).map
          (fun r => r.status) = some RStatus.Closed
        unfold close_reminder
        apply getReminder_map_closed db _ ?_ ?_ n hc
        · intro r
          by_cases hr : (r.name == rname) = true <;> simp [hr]
        · intro r hrc
          by_cases hr : (r.name == rname) = true <;> simp [hr, hrc]
    · rcases hfind : find_existing_reminder db poi with _ | rname
      · rcases hcr : create_reminder s today db item (pending_qty_of db poi) doc
            with e | p
        · simp only [process_item, hpoi, hfind, hle, if_false, hcr] at h
          cases h
        · obtain ⟨db3, rnew⟩ := p
          simp only [process_item, hpoi, hfind, hle, if_false, hcr,
            Except.ok.injEq] at h
          rw [← h]
          simp only [create_reminder] at hcr
          rcases hpo : db.purchaseOrders.find?
              (fun po => po.name == item.purchase_order) with _ | po_doc
          · rw [hpo] at hcr
            cases hcr
          · rw [hpo] at hcr
            simp only [Except.ok.injEq, Prod.mk.injEq] at hcr
            obtain ⟨hdb3, hrnew⟩ := hcr
            show (getReminder db3 n).map (fun r => r.status) = some RStatus.Closed
            rw [← hdb3]
            exact getReminder_append_closed db _ n hc
      · simp only [process_item, hpoi, hfind, hle, if_false, Except.ok.injEq] at h
        rw [← h]
        show (getReminder (update_reminder today db rname (pending_qty_of db poi)) n).map
          (fun r => r.status) = some RStatus.Closed
        unfold update_reminder
        apply getReminder_map_closed db _ ?_ ?_ n hc
        · intro r
          by_cases hr : (r.name == rname) = true <;> simp [hr]
        · intro r hrc
          by_cases hr : (r.name == rname) = true <;> simp [hr, hrc]

theorem foldl_process_keeps_closed (s : Settings) (today : ℤ) (doc : ReceiptDoc)
    (items : List ReceiptItem) (st st2 : DB × List DeliveryReminder)
    (h : items.foldlM (process_item s today doc) st = Except.ok st2) (n : String)
    (hc : (getReminder st.1 n).map (fun r => r.status) = some RStatus.Closed) :
    (getReminder st2.1 n).map (fun r => r.status) = some RStatus.Closed := by
  induction items generalizing st with
  | nil =>
    rw [List.foldlM_nil] at h
    have hok : Except.ok st = Except.ok st2 := h
    injection hok with hok
    rw [← hok]
    exact hc
  | cons a l ih =>
    rw [List.foldlM_cons] at h
    rcases hstep : process_item s today doc st a with e | st1
    · rw [hstep] at h
      have hbad : (Except.error e : Except String (DB × List DeliveryReminder)) =
          Except.ok st2 := h
      cases hbad
    · rw [hstep] at h
      have h2 : l.foldlM (process_item s today doc) st1 = Except.ok st2 := h
      exact ih st1 h2 (process_item_keeps_closed s today doc st st1 a hstep n hc)

/-- Claim C4: the Open → Closed status transition is one-way — for a
reminder found Closed, each operation of the reminder manager (a pending
quantity update, a close, a whole receipt sweep, a PO-cancellation
sweep, the escalation job and the cleanup job) either leaves its status
Closed or (cleanup only) deletes the record; none reopens it. -/
theorem closed_status_one_way (s : Settings) (today : ℤ) (db : DB) (n : String)
    (hnd : (db.reminders.map (fun r => r.name)).Nodup)
    (hclosed : (getReminder db n).map (fun r => r.status) = some RStatus.Closed) :
    (∀ rname q, (getReminder (update_reminder today db rname q) n).map
        (fun r => r.status) = some RStatus.Closed) ∧
    (∀ rname, (getReminder (close_reminder today db rname) n).map
        (fun r => r.status) = some RStatus.Closed) ∧
    (∀ doc db2, update_reminders_for_receipt s today db doc = Except.ok db2 →
      (getReminder db2 n).map (fun r => r.status) = some RStatus.Closed) ∧
    (∀ po_name, (getReminder (handle_po_cancellation today db po_name) n).map
        (fun r => r.status) = some RStatus.Closed) ∧
    ((getReminder (escalate_overdue_reminders s today db) n).map
        (fun r => r.status) = some RStatus.Closed) ∧
    (getReminder (cleanup_closed_reminders s today db) n = none ∨
      (getReminder (cleanup_closed_reminders s today db) n).map
        (fun r => r.status) = some RStatus.Closed) := by
  refine ⟨?_, ?_, ?_, ?_, ?_, ?_⟩
  · intro rname q
    unfold update_reminder
    apply getReminder_map_closed db _ ?_ ?_ n hclosed
    · intro r
      by_cases hr : (r.name == rname) = true <;> simp [hr]
    · intro r hrc
      by_cases hr : (r.name == rname) = true <;> simp [hr, hrc]
  · intro rname
    unfold close_reminder
    apply getReminder_map_closed db _ ?_ ?_ n hclosed
    · intro r
      by_cases hr : (r.name == rname) = true <;> simp [hr]
    · intro r hrc
      by_cases hr : (r.name == rname) = true <;> simp [hr, hrc]
  · intro doc db2 h
    by_cases hflag : s.enable_auto_reminders = true
    · have e1 : update_reminders_for_receipt s today db doc =
          process_document s today db doc := by
        unfold update_reminders_for_receipt
        rw [if_pos hflag]
      rw [e1] at h
      unfold process_document at h
      rcases hfold : doc.items.foldlM (process_item s today doc) (db, []) with e | st
      · rw [hfold] at h
        cases h
      · rw [hfold] at h
        simp only [Except.ok.injEq] at h
        rw [← h]
        exact foldl_process_keeps_closed s today doc doc.items (db, []) st hfold n hclosed
    · have e1 : update_reminders_for_receipt s today db doc = Except.ok db := by
        unfold update_reminders_for_receipt
        rw [if_neg hflag]
      rw [e1] at h
      simp only [Except.ok.injEq] at h
      rw [← h]
      exact hclosed
  · intro po_name
    show (getReminder (close_reminders_for_po today db po_name) n).map
      (fun r => r.status) = some RStatus.Closed
    unfold close_reminders_for_po
    apply getReminder_map_closed db _ ?_ ?_ n hclosed
    · intro r
      by_cases hcond : (r.purchase_order == po_name && r.status == RStatus.Open) = true <;>
        simp [hcond]
    · intro r hrc
      have hcond : (r.purchase_order == po_name && r.status == RStatus.Open) = false := by
        rw [hrc]
        simp
      simp [hcond, hrc]
  · by_cases hflag : s.auto_escalate_enabled = true
    · have e1 : escalate_overdue_reminders s today db = escalate_overdue s today db := by
        unfold escalate_overdue_reminders
        rw [if_pos hflag]
      rw [e1]
      unfold escalate_overdue
      apply getReminder_map_closed db _ ?_ ?_ n hclosed
      · intro r
        by_cases hcond : (r.status == RStatus.Open &&
            decide (r.next_follow_up_date < today)) = true <;> simp [hcond]
      · intro r hrc
        have hcond : (r.status == RStatus.Open &&
            decide (r.next_follow_up_date < today)) = false := by
          rw [hrc]
          simp
        simp [hcond, hrc]
    · have e1 : escalate_overdue_reminders s today db = db := by
        unfold escalate_overdue_reminders
        rw [if_neg hflag]
      rw [e1]
      exact hclosed
  · by_cases hflag : s.auto_cleanup_enabled = true
    · have e1 : cleanup_closed_reminders s today db = cleanup_closed s today db := by
        unfold cleanup_closed_reminders
        rw [if_pos hflag]
      rw [e1]
      by_cases harch : s.archive_closed_reminders = true
      · have e2 : cleanup_closed s today db = db := by
          unfold cleanup_closed
          show (if s.archive_closed_reminders = true then db else _) = db
          rw [if_pos harch]
        rw [e2]
        right
        exact hclosed
      · have e2 : cleanup_closed s today db =
            { db with reminders := db.reminders.filter (fun r =>
                !(r.status == RStatus.Closed &&
                  decide (r.modified < today - s.cleanup_after_days.getD 180))) } := by
          unfold cleanup_closed
          show (if s.archive_closed_reminders = true then db else _) = _
          rw [if_neg harch]
        rw [e2]
        rcases hfind : getReminder db n with _ | r
        · rw [hfind] at hclosed
          cases hclosed
        · have hr : r.status = RStatus.Closed := by
            rw [hfind] at hclosed
            simpa using hclosed
          have hff := find?_name_filter db.reminders
            (fun r => !(r.status == RStatus.Closed &&
              decide (r.modified < today - s.cleanup_after_days.getD 180))) n r hnd hfind
          by_cases hk : (!(r.status == RStatus.Closed &&
              decide (r.modified < today - s.cleanup_after_days.getD 180))) = true
          · right
            show ((db.reminders.filter (fun r =>
                !(r.status == RStatus.Closed &&
                  decide (r.modified < today - s.cleanup_after_days.getD 180)))).find?
              (fun r => r.name == n)).map (fun r => r.status) = some RStatus.Closed
            rw [hff, if_pos hk]
            simp [hr]
          · left
            show (db.reminders.filter (fun r =>
                !(r.status == RStatus.Closed &&
                  decide (r.modified < today - s.cleanup_after_days.getD 180)))).find?
              (fun r => r.name == n) = none
            rw [hff, if_neg hk]
    · have e1 : cleanup_closed_reminders s today db = db := by
        unfold cleanup_closed_reminders
        rw [if_neg hflag]
      rw [e1]
      right
      exact hclosed

/-- Claim C4 witness: on the sample world the long-Closed reminder
`R-OLD` stays Closed under a pending-quantity update and under the
escalation job, and the cleanup job either removed it or left it
Closed. -/
theorem closed_status_one_way_witness :
    ((getReminder (update_reminder 100 sampleDB ("R-B") 6) ("R-OLD")).map
        (fun r => r.status) = some RStatus.Closed) ∧
    ((getReminder (escalate_overdue_reminders sampleSettings 100 sampleDB) ("R-OLD")).map
        (fun r => r.status) = some RStatus.Closed) ∧
    (getReminder (cleanup_closed_reminders sampleSettings 100 sampleDB) ("R-OLD") = none ∨
      (getReminder (cleanup_closed_reminders sampleSettings 100 sampleDB) ("R-OLD")).map
        (fun r => r.status) = some RStatus.Closed) :=
  ⟨(closed_status_one_way sampleSettings 100 sampleDB ("R-OLD")
      (by decide) (by decide)).1 ("R-B") 6,
   (closed_status_one_way sampleSettings 100 sampleDB ("R-OLD")
      (by decide) (by decide)).2.2.2.2.1,
   (closed_status_one_way sampleSettings 100 sampleDB ("R-OLD")
      (by decide) (by decide)).2.2.2.2.2⟩

end PurchaseEnhancements
